import Mathlib

/-!
Verification of the Newboater3d water-surface renderer (src/water.js).

The two GLSL shader programs (`waterVertexShader`, `waterFragmentShader`)
and the scene plumbing (`createWater`, `onWindowResize`, `animate`) are
shallowly embedded over the reals.  Vectors and matrices mirror GLSL
`vec2`/`vec3`/`vec4`/`mat3`/`mat4`; GLSL builtins `clamp`, `mix`,
`smoothstep`, `normalize`, `length` are defined with their specified
real-number semantics.
-/

noncomputable section

namespace Newboater3d

open Real

/-- GLSL `vec2`. -/
structure Vec2 where
  x : ℝ
  y : ℝ

/-- GLSL `vec3`. -/
structure Vec3 where
  x : ℝ
  y : ℝ
  z : ℝ

/-- GLSL `vec4`. -/
structure Vec4 where
  x : ℝ
  y : ℝ
  z : ℝ
  w : ℝ

/-- GLSL `mat3`, stored by rows. -/
structure Mat3 where
  r0 : Vec3
  r1 : Vec3
  r2 : Vec3

/-- GLSL `mat4`, stored by rows. -/
structure Mat4 where
  r0 : Vec4
  r1 : Vec4
  r2 : Vec4
  r3 : Vec4

/-- Dot product of two `vec3`s. -/
def dot3 (a b : Vec3) : ℝ := a.x * b.x + a.y * b.y + a.z * b.z

/-- Dot product of two `vec4`s. -/
def dot4 (a b : Vec4) : ℝ := a.x * b.x + a.y * b.y + a.z * b.z + a.w * b.w

/-- Matrix-vector product `mat3 * vec3`. -/
def matVec3 (m : Mat3) (v : Vec3) : Vec3 := ⟨dot3 m.r0 v, dot3 m.r1 v, dot3 m.r2 v⟩

/-- Matrix-vector product `mat4 * vec4`. -/
def matVec4 (m : Mat4) (v : Vec4) : Vec4 :=
  ⟨dot4 m.r0 v, dot4 m.r1 v, dot4 m.r2 v, dot4 m.r3 v⟩

/-- The identity `mat3`. -/
def idMat3 : Mat3 := ⟨⟨1, 0, 0⟩, ⟨0, 1, 0⟩, ⟨0, 0, 1⟩⟩

/-- The identity `mat4`. -/
def idMat4 : Mat4 := ⟨⟨1, 0, 0, 0⟩, ⟨0, 1, 0, 0⟩, ⟨0, 0, 1, 0⟩, ⟨0, 0, 0, 1⟩⟩

/-- GLSL `length` of a `vec3`. -/
def length3 (v : Vec3) : ℝ := Real.sqrt (v.x ^ 2 + v.y ^ 2 + v.z ^ 2)

/-- GLSL `normalize` of a `vec3`. -/
def normalize3 (v : Vec3) : Vec3 :=
  ⟨v.x / length3 v, v.y / length3 v, v.z / length3 v⟩

/-- GLSL `clamp(x, lo, hi) = min(max(x, lo), hi)`. -/
def glslClamp (x lo hi : ℝ) : ℝ := min (max x lo) hi

/-- GLSL `mix(a, b, t) = a*(1-t) + b*t` (unclamped linear blend). -/
def glslMix (a b t : ℝ) : ℝ := a * (1 - t) + b * t

/-- Componentwise `mix` on `vec3`. -/
def mix3 (a b : Vec3) (t : ℝ) : Vec3 :=
  ⟨glslMix a.x b.x t, glslMix a.y b.y t, glslMix a.z b.z t⟩

/-- Componentwise `max` on `vec3`. -/
def max3 (a b : Vec3) : Vec3 := ⟨max a.x b.x, max a.y b.y, max a.z b.z⟩

/-- Scalar multiple of a `vec3`. -/
def scale3 (s : ℝ) (v : Vec3) : Vec3 := ⟨s * v.x, s * v.y, s * v.z⟩

/-- Componentwise difference of `vec3`s. -/
def sub3 (a b : Vec3) : Vec3 := ⟨a.x - b.x, a.y - b.y, a.z - b.z⟩

/-- GLSL `smoothstep(edge0, edge1, x)`. -/
def smoothstep (edge0 edge1 x : ℝ) : ℝ :=
  let t := glslClamp ((x - edge0) / (edge1 - edge0)) 0 1
  t * t * (3 - 2 * t)

/-! ### Vertex shader (`waterVertexShader`, src/water.js lines 5-57) -/

/-- Shader constant `float smallFrequency = 8.0;`. -/
def smallFrequency : ℝ := 8.0

/-- Shader constant `float smallAmplitude = 0.15;`. -/
def smallAmplitude : ℝ := 0.15

/-- Small ripples, the primary wave pattern (`smallWave` in the vertex shader). -/
def smallWave (x y t vs : ℝ) : ℝ :=
  Real.sin (x * smallFrequency + t * vs) *
    Real.cos (y * smallFrequency * 0.5 + t * vs * 0.8) * smallAmplitude

/-- Shader constant `float mediumFrequency = 4.0;`. -/
def mediumFrequency : ℝ := 4.0

/-- Shader constant `float mediumAmplitude = 0.25;`. -/
def mediumAmplitude : ℝ := 0.25

/-- Medium ripples, the secondary wave pattern (`mediumWave` in the vertex shader). -/
def mediumWave (x y t vs : ℝ) : ℝ :=
  Real.sin (x * mediumFrequency + y * mediumFrequency * 0.3 + t * vs * 1.2) *
    mediumAmplitude

/-- Shader constant `float largeFrequency1 = 2.0;`. -/
def largeFrequency1 : ℝ := 2.0

/-- Shader constant `float largeFrequency2 = 1.5;`. -/
def largeFrequency2 : ℝ := 1.5

/-- Shader constant `float largeAmplitude = 0.4;`. -/
def largeAmplitude : ℝ := 0.4

/-- First large ripple band (`largeWave1` in the vertex shader). -/
def largeWave1 (x y t vl : ℝ) : ℝ :=
  Real.sin (x * largeFrequency1 + t * vl) *
    Real.cos (y * largeFrequency1 * 0.4 + t * vl * 0.6) * largeAmplitude

/-- Second large ripple band (`largeWave2` in the vertex shader). -/
def largeWave2 (x y t vl : ℝ) : ℝ :=
  Real.sin (x * largeFrequency2 * 1.3 + y * largeFrequency2 * 0.2 + t * vl * 0.8) *
    largeAmplitude * 0.7

/-- Weighted combination `combinedWave = smallWave + mediumWave * 0.6 + largeWave1 * 0.5 + largeWave2 * 0.4`. -/
def combinedWave (x y t vs vl : ℝ) : ℝ :=
  smallWave x y t vs + mediumWave x y t vs * 0.6 +
    largeWave1 x y t vl * 0.5 + largeWave2 x y t vl * 0.4

/-- Positional variation term `positionVariation = sin(pos.x * 0.5) * cos(pos.y * 0.5) * 0.1`. -/
def positionVariation (x y : ℝ) : ℝ :=
  Real.sin (x * 0.5) * Real.cos (y * 0.5) * 0.1

/-- The elevation of a planar grid point `(x, y)` (base `z = 0`) at time `t`,
with small-wave speed `vs` and large-wave speed `vl`: the value the vertex
shader stores in `vElevation` after `pos.z += combinedWave + positionVariation`. -/
def elevation (x y t vs vl : ℝ) : ℝ :=
  combinedWave x y t vs vl + positionVariation x y

/-- The three uniforms declared by `waterVertexShader`. -/
structure VertexUniforms where
  uTime : ℝ
  uSmallWaveSpeed : ℝ
  uLargeWaveSpeed : ℝ

/-- The varyings produced by `waterVertexShader.main`, plus `gl_Position`. -/
structure VertexOut where
  vUv : Vec2
  vElevation : ℝ
  vNormal : Vec3
  vPosition : Vec3
  glPosition : Vec4

/-- The body of `waterVertexShader.main`: displaces `position.z` by the
combined wave plus the positional variation, passes the attribute normal
through the normal matrix, and projects the displaced position. -/
def vertexMain (u : VertexUniforms) (projectionMatrix modelViewMatrix : Mat4)
    (normalMatrix : Mat3) (position : Vec3) (uv : Vec2) (normal : Vec3) : VertexOut :=
  let cw := combinedWave position.x position.y u.uTime u.uSmallWaveSpeed u.uLargeWaveSpeed
  let pv := positionVariation position.x position.y
  let pos : Vec3 := ⟨position.x, position.y, position.z + (cw + pv)⟩
  { vUv := uv
    vElevation := pos.z
    vPosition := pos
    vNormal := normalize3 (matVec3 normalMatrix normal)
    glPosition := matVec4 projectionMatrix (matVec4 modelViewMatrix ⟨pos.x, pos.y, pos.z, 1⟩) }

/-! ### Fragment shader (`waterFragmentShader`, src/water.js lines 60-99) -/

/-- The uniforms declared by `waterFragmentShader`. -/
structure FragmentUniforms where
  uDepthColor : Vec3
  uSurfaceColor : Vec3
  uColorOffset : ℝ
  uColorMultiplier : ℝ
  uTime : ℝ

/-- Shader line `float mixStrength = (vElevation + uColorOffset) * uColorMultiplier;`. -/
def mixStrengthRaw (e off mult : ℝ) : ℝ := (e + off) * mult

/-- Shader line `mixStrength = clamp(mixStrength, 0.0, 1.0);`. -/
def mixStrengthClamped (e off mult : ℝ) : ℝ := glslClamp (mixStrengthRaw e off mult) 0 1

/-- The blend factor actually passed to `mix`: `mixStrength + 0.5`
(the `+ 0.5` is applied after the clamp). -/
def baseMixFactor (e off mult : ℝ) : ℝ := mixStrengthClamped e off mult + 0.5

/-- Shader line `vec3 color = mix(uDepthColor, uSurfaceColor, mixStrength + 0.5);`. -/
def baseColorMix (depth surface : Vec3) (e off mult : ℝ) : Vec3 :=
  mix3 depth surface (baseMixFactor e off mult)

/-- The body of `waterFragmentShader.main`: base depth/surface blend, foam
overlay, fresnel edge lightening, brightness modulation, dark floor clamp,
and a fixed alpha of `0.92`. -/
def fragmentMain (u : FragmentUniforms) (cameraPosition : Vec3)
    (vElev : ℝ) (vNrm vPos : Vec3) : Vec4 :=
  let color := baseColorMix u.uDepthColor u.uSurfaceColor vElev u.uColorOffset u.uColorMultiplier
  let foam := smoothstep 0.2 0.3 vElev
  let color := mix3 color ⟨0.95, 0.98, 1.0⟩ (foam * 0.3)
  let viewDirection := normalize3 (sub3 cameraPosition vPos)
  let fresnel := (1 - dot3 viewDirection vNrm) ^ 2
  let color := mix3 color (scale3 1.2 u.uSurfaceColor) (fresnel * 0.3)
  let color := scale3 (0.95 + vElev * 0.15) color
  let color := max3 color ⟨0.05, 0.15, 0.25⟩
  ⟨color.x, color.y, color.z, 0.92⟩

/-! ### Scene plumbing (`WaterScene`, src/water.js lines 101-247) -/

/-- The full uniform record built in `createWater` (src/water.js lines 173-182). -/
structure WaterUniforms where
  uTime : ℝ
  uSmallWaveSpeed : ℝ
  uLargeWaveSpeed : ℝ
  uDepthColor : Vec3
  uSurfaceColor : Vec3
  uColorOffset : ℝ
  uColorMultiplier : ℝ
  cameraPosition : Vec3

/-- The uniform values set in `createWater`: speeds 2.0 / 1.0, depth color
`0x0077BE`, surface color `0x52D3F5`, offset 0.1, multiplier 3.0, and the
initial camera position `(10, 8, 10)`. -/
def defaultWaterUniforms : WaterUniforms where
  uTime := 0
  uSmallWaveSpeed := 2
  uLargeWaveSpeed := 1
  uDepthColor := ⟨0x00 / 255, 0x77 / 255, 0xBE / 255⟩
  uSurfaceColor := ⟨0x52 / 255, 0xD3 / 255, 0xF5 / 255⟩
  uColorOffset := 0.1
  uColorMultiplier := 3
  cameraPosition := ⟨10, 8, 10⟩

/-- A uniform record that differs from the default configuration only in
shading-stage parameters: depth color, surface color, color offset, and
color multiplier. -/
def alteredShadingUniforms : WaterUniforms :=
  { defaultWaterUniforms with
    uDepthColor := ⟨0.5, 0.5, 0.5⟩
    uSurfaceColor := ⟨1, 0, 0⟩
    uColorOffset := 0.25
    uColorMultiplier := 7 }

/-- The slice of the uniform record the vertex shader declares. -/
def vertexUniformsOf (u : WaterUniforms) : VertexUniforms :=
  ⟨u.uTime, u.uSmallWaveSpeed, u.uLargeWaveSpeed⟩

/-- The slice of the uniform record the fragment shader declares. -/
def fragmentUniformsOf (u : WaterUniforms) : FragmentUniforms :=
  ⟨u.uDepthColor, u.uSurfaceColor, u.uColorOffset, u.uColorMultiplier, u.uTime⟩

/-- The perspective camera state (`THREE.PerspectiveCamera`). -/
structure Camera where
  fov : ℝ
  aspect : ℝ
  near : ℝ
  far : ℝ
  position : Vec3

/-- The renderer output-buffer state (`renderer.setSize`, `setPixelRatio`). -/
structure Renderer where
  width : ℝ
  height : ℝ
  pixelRatio : ℝ

/-- The water plane geometry parameters (`THREE.PlaneGeometry(50, 50, 128, 128)`). -/
structure PlaneGeom where
  width : ℝ
  height : ℝ
  widthSegments : ℕ
  heightSegments : ℕ

/-- The mutable scene state touched by the resize handler. -/
structure SceneState where
  camera : Camera
  renderer : Renderer
  waterGeometry : PlaneGeom
  waterUniforms : WaterUniforms

/-- Resize handler `onWindowResize` (src/water.js lines 219-223): sets `camera.aspect` to
`innerWidth / innerHeight`, recomputes the projection, and resizes the
output buffer.  Nothing else is touched. -/
def onWindowResize (innerWidth innerHeight : ℝ) (s : SceneState) : SceneState :=
  { s with
    camera := { s.camera with aspect := innerWidth / innerHeight }
    renderer := { s.renderer with width := innerWidth, height := innerHeight } }

/-- One frame of `animate` (src/water.js lines 225-241): the loop writes the
clock's elapsed time into `uTime` and the camera position into
`cameraPosition`; every other uniform is left as configured. -/
def setFrameTime (u : WaterUniforms) (elapsedTime : ℝ) (camPos : Vec3) : WaterUniforms :=
  { u with uTime := elapsedTime, cameraPosition := camPos }

/-- The elevation computed from a uniform record at planar point `(x, y)`. -/
def elevationOf (u : WaterUniforms) (x y : ℝ) : ℝ :=
  elevation x y u.uTime u.uSmallWaveSpeed u.uLargeWaveSpeed

/-- The elevations a fixed grid point takes over a sequence of frames whose
elapsed times are `ts`: each frame re-evaluates the shader from the frame's
uniforms, with no state carried between frames. -/
def renderElevations (u : WaterUniforms) (camPos : Vec3) (ts : List ℝ) (x y : ℝ) : List ℝ :=
  ts.map (fun t => elevationOf (setFrameTime u t camPos) x y)

/-! ### Helper lemmas -/

/-- Clamping to `[0, 1]` yields a nonnegative value. -/
lemma clamp01_nonneg (x : ℝ) : 0 ≤ glslClamp x 0 1 :=
  le_min (le_max_right _ _) zero_le_one

/-- Clamping to `[0, 1]` yields a value at most `1`. -/
lemma clamp01_le_one (x : ℝ) : glslClamp x 0 1 ≤ 1 :=
  min_le_right _ _

/-- A `sin * cos * amplitude` band is bounded by its amplitude. -/
lemma abs_sin_mul_cos_mul_le (a b c : ℝ) (hc : 0 ≤ c) :
    |Real.sin a * Real.cos b * c| ≤ c := by
  rw [abs_mul, abs_mul, abs_of_nonneg hc]
  have h : |Real.sin a| * |Real.cos b| * c ≤ 1 * 1 * c := by
    gcongr
    · exact Real.abs_sin_le_one a
    · exact Real.abs_cos_le_one b
  linarith

/-- A `sin * amplitude` band is bounded by its amplitude. -/
lemma abs_sin_mul_le (a c : ℝ) (hc : 0 ≤ c) : |Real.sin a * c| ≤ c := by
  rw [abs_mul, abs_of_nonneg hc]
  have h : |Real.sin a| * c ≤ 1 * c := by
    gcongr
    exact Real.abs_sin_le_one a
  linarith

/-! ### Claim theorems (first group) -/

/-- Claim C1: for every planar position `(x, y)` and time `t`, the elevation
equals `smallWave + 0.6*mediumWave + 0.5*largeWave1 + 0.4*largeWave2 +
sin(x*0.5)*cos(y*0.5)*0.1` with the documented band formulas. -/
theorem elevation_eq_weighted_band_sum (x y t vs vl : ℝ) :
    elevation x y t vs vl =
      (Real.sin (x * 8 + t * vs) * Real.cos (y * 4 + t * vs * 0.8) * 0.15) +
        0.6 * (Real.sin (x * 4 + y * 1.2 + t * vs * 1.2) * 0.25) +
        0.5 * (Real.sin (x * 2 + t * vl) * Real.cos (y * 0.8 + t * vl * 0.6) * 0.4) +
        0.4 * (Real.sin (x * 1.95 + y * 0.3 + t * vl * 0.8) * (0.4 * 0.7)) +
        Real.sin (x * 0.5) * Real.cos (y * 0.5) * 0.1 := by
  simp only [elevation, combinedWave, smallWave, mediumWave, largeWave1, largeWave2,
    positionVariation, smallFrequency, smallAmplitude, mediumFrequency, mediumAmplitude,
    largeFrequency1, largeFrequency2, largeAmplitude]
  ring_nf

/-- Claim C5: at `x = 0`, `y = 0`, `t = 0` every sine-led term vanishes:
`combinedWave 0 0 0 = 0`, `positionVariation 0 0 = 0`, and the elevation is
exactly `0`, for any wave speeds. -/
theorem elevation_at_origin_zero (vs vl : ℝ) :
    combinedWave 0 0 0 vs vl = 0 ∧ positionVariation 0 0 = 0 ∧
      elevation 0 0 0 vs vl = 0 := by
  simp [elevation, combinedWave, smallWave, mediumWave, largeWave1, largeWave2,
    positionVariation]

/-- Claim C4: for every `(x, y)` and every elapsed time `t` (arbitrarily
large included), the absolute displacement is bounded by the sum of the
weighted amplitudes plus the positional-variation amplitude:
`0.15 + 0.6*0.25 + 0.5*0.4 + 0.4*0.4*0.7 + 0.1 = 0.712`. -/
theorem elevation_abs_le (x y t vs vl : ℝ) : |elevation x y t vs vl| ≤ 0.712 := by
  have b1 : |smallWave x y t vs| ≤ 0.15 := by
    simp only [smallWave, smallFrequency, smallAmplitude]
    exact abs_sin_mul_cos_mul_le _ _ _ (by norm_num)
  have b2 : |mediumWave x y t vs * 0.6| ≤ 0.15 := by
    rw [abs_mul, abs_of_nonneg (by norm_num : (0:ℝ) ≤ 0.6)]
    have h : |mediumWave x y t vs| ≤ 0.25 := by
      simp only [mediumWave, mediumFrequency, mediumAmplitude]
      exact abs_sin_mul_le _ _ (by norm_num)
    linarith
  have b3 : |largeWave1 x y t vl * 0.5| ≤ 0.2 := by
    rw [abs_mul, abs_of_nonneg (by norm_num : (0:ℝ) ≤ 0.5)]
    have h : |largeWave1 x y t vl| ≤ 0.4 := by
      simp only [largeWave1, largeFrequency1, largeAmplitude]
      exact abs_sin_mul_cos_mul_le _ _ _ (by norm_num)
    linarith
  have b4 : |largeWave2 x y t vl * 0.4| ≤ 0.112 := by
    rw [abs_mul, abs_of_nonneg (by norm_num : (0:ℝ) ≤ 0.4)]
    have h : |largeWave2 x y t vl| ≤ 0.28 := by
      simp only [largeWave2, largeFrequency2, largeAmplitude]
      rw [abs_mul, abs_of_nonneg (by norm_num : (0:ℝ) ≤ 0.7)]
      have := abs_sin_mul_le (x * 1.5 * 1.3 + y * 1.5 * 0.2 + t * vl * 0.8) 0.4 (by norm_num)
      linarith
    linarith
  have b5 : |positionVariation x y| ≤ 0.1 := by
    simp only [positionVariation]
    exact abs_sin_mul_cos_mul_le _ _ _ (by norm_num)
  have t1 : |smallWave x y t vs + mediumWave x y t vs * 0.6| ≤
      |smallWave x y t vs| + |mediumWave x y t vs * 0.6| := abs_add _ _
  have t2 : |smallWave x y t vs + mediumWave x y t vs * 0.6 + largeWave1 x y t vl * 0.5| ≤
      |smallWave x y t vs + mediumWave x y t vs * 0.6| + |largeWave1 x y t vl * 0.5| :=
    abs_add _ _
  have t3 : |smallWave x y t vs + mediumWave x y t vs * 0.6 + largeWave1 x y t vl * 0.5 +
        largeWave2 x y t vl * 0.4| ≤
      |smallWave x y t vs + mediumWave x y t vs * 0.6 + largeWave1 x y t vl * 0.5| +
        |largeWave2 x y t vl * 0.4| := abs_add _ _
  have t4 : |smallWave x y t vs + mediumWave x y t vs * 0.6 + largeWave1 x y t vl * 0.5 +
        largeWave2 x y t vl * 0.4 + positionVariation x y| ≤
      |smallWave x y t vs + mediumWave x y t vs * 0.6 + largeWave1 x y t vl * 0.5 +
        largeWave2 x y t vl * 0.4| + |positionVariation x y| := abs_add _ _
  have e : elevation x y t vs vl =
      smallWave x y t vs + mediumWave x y t vs * 0.6 + largeWave1 x y t vl * 0.5 +
        largeWave2 x y t vl * 0.4 + positionVariation x y := rfl
  rw [e]
  linarith

/-- Claim C6: the displacement is deterministic (identical inputs give
identical elevations) and stateless (over any frame history, the elevation
of the last frame depends only on that frame's elapsed time, not on any
earlier frame). -/
theorem elevation_deterministic_and_stateless :
    (∀ x y t vs vl x' y' t' vs' vl', x = x' → y = y' → t = t' → vs = vs' → vl = vl' →
        elevation x y t vs vl = elevation x' y' t' vs' vl') ∧
    (∀ (u : WaterUniforms) (camPos : Vec3) (x y : ℝ) (pre : List ℝ) (t : ℝ),
        (renderElevations u camPos (pre ++ [t]) x y).getLast? =
          some (elevation x y t u.uSmallWaveSpeed u.uLargeWaveSpeed)) := by
  constructor
  · intro x y t vs vl x' y' t' vs' vl' hx hy ht hvs hvl
    rw [hx, hy, ht, hvs, hvl]
  · intro u camPos x y pre t
    simp [renderElevations, elevationOf, setFrameTime]

/-- Claim C6 witness: the determinism and statelessness theorem applied at
a concrete input and a concrete two-frame history. -/
theorem elevation_deterministic_and_stateless_witness :
    elevation 0 0 0 2 1 = elevation 0 0 0 2 1 ∧
      (renderElevations defaultWaterUniforms ⟨10, 8, 10⟩ ([3] ++ [0]) 0 0).getLast? =
        some (elevation 0 0 0 2 1) :=
  ⟨elevation_deterministic_and_stateless.1 0 0 0 2 1 0 0 0 2 1 rfl rfl rfl rfl rfl,
    elevation_deterministic_and_stateless.2 defaultWaterUniforms ⟨10, 8, 10⟩ 0 0 [3] 0⟩

/-- Claim C7: elevation depends only on the vertex-stage uniforms (time and
the two wave speeds); two uniform records that agree on those but differ in
depth color, surface color, color offset, color multiplier, or camera
position produce identical elevations at every vertex. -/
theorem elevation_ignores_shading_uniforms (u1 u2 : WaterUniforms)
    (ht : u1.uTime = u2.uTime) (hs : u1.uSmallWaveSpeed = u2.uSmallWaveSpeed)
    (hl : u1.uLargeWaveSpeed = u2.uLargeWaveSpeed)
    (pj mv : Mat4) (nm : Mat3) (position : Vec3) (uv : Vec2) (normal : Vec3) :
    (vertexMain (vertexUniformsOf u1) pj mv nm position uv normal).vElevation =
      (vertexMain (vertexUniformsOf u2) pj mv nm position uv normal).vElevation := by
  simp [vertexMain, vertexUniformsOf, ht, hs, hl]

/-- Claim C7 witness: the default uniforms and a record differing only in
colors, color offset, and color multiplier give the same elevation at the
concrete vertex `(5, 3)`. -/
theorem elevation_ignores_shading_uniforms_witness :
    (vertexMain (vertexUniformsOf defaultWaterUniforms) idMat4 idMat4 idMat3
        ⟨5, 3, 0⟩ ⟨0, 0⟩ ⟨0, 0, 1⟩).vElevation =
      (vertexMain (vertexUniformsOf alteredShadingUniforms) idMat4 idMat4 idMat3
        ⟨5, 3, 0⟩ ⟨0, 0⟩ ⟨0, 0, 1⟩).vElevation :=
  elevation_ignores_shading_uniforms defaultWaterUniforms alteredShadingUniforms
    rfl rfl rfl idMat4 idMat4 idMat3 ⟨5, 3, 0⟩ ⟨0, 0⟩ ⟨0, 0, 1⟩

/-- Claim C8: for every elevation, color offset, and color multiplier, the
clamped mix strength lies in `[0, 1]`. -/
theorem mixStrength_clamped_mem_unit (e off mult : ℝ) :
    0 ≤ mixStrengthClamped e off mult ∧ mixStrengthClamped e off mult ≤ 1 :=
  ⟨clamp01_nonneg _, clamp01_le_one _⟩

/-- Claim C10: the blend factor passed to the depth/surface mix is the
clamped mix strength plus `0.5`, hence always in `[0.5, 1.5]`; when the
clamped mix strength exceeds `0.5` the factor exceeds `1`, so the mix
extrapolates beyond the surface color. -/
theorem baseMixFactor_biased_range (e off mult : ℝ) :
    baseMixFactor e off mult = mixStrengthClamped e off mult + 0.5 ∧
      0.5 ≤ baseMixFactor e off mult ∧ baseMixFactor e off mult ≤ 1.5 ∧
      (0.5 < mixStrengthClamped e off mult → 1 < baseMixFactor e off mult) := by
  have h0 : 0 ≤ mixStrengthClamped e off mult := clamp01_nonneg _
  have h1 : mixStrengthClamped e off mult ≤ 1 := clamp01_le_one _
  refine ⟨rfl, ?_, ?_, ?_⟩
  · simp only [baseMixFactor]; linarith
  · simp only [baseMixFactor]; linarith
  · intro h; simp only [baseMixFactor]; linarith

/-- Claim C10 witness: at elevation `1`, offset `0`, multiplier `1` the
clamped mix strength is `1 > 0.5` and the blend factor exceeds `1`. -/
theorem baseMixFactor_biased_range_witness :
    0.5 < mixStrengthClamped 1 0 1 ∧ 1 < baseMixFactor 1 0 1 := by
  have h : 0.5 < mixStrengthClamped 1 0 1 := by
    norm_num [mixStrengthClamped, mixStrengthRaw, glslClamp, max_def, min_def]
  exact ⟨h, (baseMixFactor_biased_range 1 0 1).2.2.2 h⟩

/-- Claim C3 counterexample: at elevation `1`, offset `0`, multiplier `1`,
the code's blend factor is `clamp(1,0,1) + 0.5 = 1.5`, whereas adding the
bias before the clamp would give `clamp(1.5,0,1) = 1`: the bias is not
applied before the clamp. -/
theorem bias_before_clamp_counterexample :
    baseMixFactor 1 0 1 ≠ glslClamp ((1 + 0) * 1 + 0.5) 0 1 := by
  norm_num [baseMixFactor, mixStrengthClamped, mixStrengthRaw, glslClamp, max_def, min_def]

/-- Claim C3 amended: the constant `0.5` bias is added to the mix strength
after the clamp to `[0, 1]`, so the blend factor passed to the
depth/surface mix is `clamp((e + colorOffset) * colorMultiplier, 0, 1) + 0.5`. -/
theorem bias_added_after_clamp (depth surface : Vec3) (e off mult : ℝ) :
    baseColorMix depth surface e off mult =
      mix3 depth surface (glslClamp ((e + off) * mult) 0 1 + 0.5) := rfl

/-- Claim C2 counterexample: at the vertex `(0, 0, 0)` with the code's wave
speeds (2 and 1), identity matrices, and the flat plane's attribute normal
`(0, 0, 1)`, the vertex shader supplies exactly the flat normal `(0, 0, 1)`
to the shading stage, while the displaced surface there has x-slope
`2.4684`, so the supplied normal is not orthogonal to the displaced
surface's tangent `(1, 0, 2.4684)`: the normal is not recomputed from the
displaced surface. -/
theorem flat_normal_counterexample :
    (vertexMain ⟨0, 2, 1⟩ idMat4 idMat4 idMat3 ⟨0, 0, 0⟩ ⟨0, 0⟩ ⟨0, 0, 1⟩).vNormal =
        ⟨0, 0, 1⟩ ∧
      HasDerivAt (fun x : ℝ => elevation x 0 0 2 1) 2.4684 0 ∧
      dot3 (vertexMain ⟨0, 2, 1⟩ idMat4 idMat4 idMat3 ⟨0, 0, 0⟩ ⟨0, 0⟩ ⟨0, 0, 1⟩).vNormal
          ⟨1, 0, 2.4684⟩ ≠ 0 := by
  have hA : (vertexMain ⟨0, 2, 1⟩ idMat4 idMat4 idMat3 ⟨0, 0, 0⟩ ⟨0, 0⟩ ⟨0, 0, 1⟩).vNormal =
      ⟨0, 0, 1⟩ := by
    show normalize3 (matVec3 idMat3 ⟨0, 0, 1⟩) = ⟨0, 0, 1⟩
    simp [normalize3, matVec3, dot3, idMat3, length3]
  have hfun : (fun x : ℝ => elevation x 0 0 2 1) =
      (fun x : ℝ => Real.sin (x * 8) * 0.15 + Real.sin (x * 4) * 0.15 +
        Real.sin (x * 2) * 0.2 + Real.sin (x * 1.95) * 0.112 + Real.sin (x * 0.5) * 0.1) := by
    funext x
    simp only [elevation, combinedWave, smallWave, mediumWave, largeWave1, largeWave2,
      positionVariation, smallFrequency, smallAmplitude, mediumFrequency, mediumAmplitude,
      largeFrequency1, largeFrequency2, largeAmplitude, zero_mul, mul_zero, add_zero,
      zero_add, Real.cos_zero, mul_one]
    ring_nf
  have h1 : HasDerivAt (fun x : ℝ => Real.sin (x * 8) * 0.15)
      (Real.cos ((0 : ℝ) * 8) * (1 * 8) * 0.15) 0 :=
    (((hasDerivAt_id (0 : ℝ)).mul_const 8).sin).mul_const 0.15
  have h2 : HasDerivAt (fun x : ℝ => Real.sin (x * 4) * 0.15)
      (Real.cos ((0 : ℝ) * 4) * (1 * 4) * 0.15) 0 :=
    (((hasDerivAt_id (0 : ℝ)).mul_const 4).sin).mul_const 0.15
  have h3 : HasDerivAt (fun x : ℝ => Real.sin (x * 2) * 0.2)
      (Real.cos ((0 : ℝ) * 2) * (1 * 2) * 0.2) 0 :=
    (((hasDerivAt_id (0 : ℝ)).mul_const 2).sin).mul_const 0.2
  have h4 : HasDerivAt (fun x : ℝ => Real.sin (x * 1.95) * 0.112)
      (Real.cos ((0 : ℝ) * 1.95) * (1 * 1.95) * 0.112) 0 :=
    (((hasDerivAt_id (0 : ℝ)).mul_const 1.95).sin).mul_const 0.112
  have h5 : HasDerivAt (fun x : ℝ => Real.sin (x * 0.5) * 0.1)
      (Real.cos ((0 : ℝ) * 0.5) * (1 * 0.5) * 0.1) 0 :=
    (((hasDerivAt_id (0 : ℝ)).mul_const 0.5).sin).mul_const 0.1
  have hsum := (((h1.add h2).add h3).add h4).add h5
  have hB : HasDerivAt (fun x : ℝ => elevation x 0 0 2 1) 2.4684 0 := by
    rw [hfun]
    convert hsum using 1
    norm_num [Real.cos_zero]
  refine ⟨hA, hB, ?_⟩
  rw [hA]
  norm_num [dot3]

/-- Claim C2 amended: the normal supplied to the shading stage is the flat
undisplaced plane's attribute normal transformed by the normal matrix,
`normalize(normalMatrix * normal)`; it does not depend on the displacement
or on the elapsed time. -/
theorem vNormal_is_transformed_attribute (u : VertexUniforms) (pj mv : Mat4) (nm : Mat3)
    (position : Vec3) (uv : Vec2) (normal : Vec3) (t' : ℝ) :
    (vertexMain u pj mv nm position uv normal).vNormal = normalize3 (matVec3 nm normal) ∧
      (vertexMain u pj mv nm position uv normal).vNormal =
        (vertexMain ⟨t', u.uSmallWaveSpeed, u.uLargeWaveSpeed⟩ pj mv nm
          position uv normal).vNormal :=
  ⟨rfl, rfl⟩

/-- Claim C9: handling a viewport resize sets the camera's aspect ratio to
the new width/height ratio and the output buffer to the new dimensions,
and leaves the water geometry, the wave/shading uniforms, and every other
camera parameter unchanged. -/
theorem resize_updates_only_projection_and_buffer (w h : ℝ) (s : SceneState) :
    (onWindowResize w h s).camera.aspect = w / h ∧
      (onWindowResize w h s).renderer.width = w ∧
      (onWindowResize w h s).renderer.height = h ∧
      (onWindowResize w h s).camera.fov = s.camera.fov ∧
      (onWindowResize w h s).camera.near = s.camera.near ∧
      (onWindowResize w h s).camera.far = s.camera.far ∧
      (onWindowResize w h s).camera.position = s.camera.position ∧
      (onWindowResize w h s).renderer.pixelRatio = s.renderer.pixelRatio ∧
      (onWindowResize w h s).waterGeometry = s.waterGeometry ∧
      (onWindowResize w h s).waterUniforms = s.waterUniforms :=
  ⟨rfl, rfl, rfl, rfl, rfl, rfl, rfl, rfl, rfl, rfl⟩

end Newboater3d
